import Mathlib

/-!
Verification of the live-telemetry buffer embedded in
`src/frontend/src/components/AssetView.jsx`.

The buffer keeps a sliding window (`historyData`, capacity
`MAX_DATA_POINTS = 100`) of sensor samples for one asset. Each 5-second
tick generates one new sample from the carried previous values
(`prevValuesRef.current`), appends it and keeps the last 100 entries.
An asynchronous history fetch may seed the window; a `timeRange` change
resets it; when the window is empty, the `combinedData` memo substitutes
a freshly generated 20-point mock run.

Modelling choices:
* Numbers are exact rationals. `x.toFixed(k)` is `roundTo k`, rounding to
  the nearest multiple of `10 ^ (-k)` with ties rounded up, which agrees
  with the ECMAScript `toFixed` rule (choose the larger candidate on ties)
  on the positive values produced here.
* The ambient effects are an explicit environment `Env`: `rand i` is the
  result of the i-th `Math.random()` call, `jsSin` and `jsCos` are the
  `Math.sin` / `Math.cos` evaluations, and `now t` is `Date.now()` at
  tick number `t` (milliseconds since epoch, a natural number).
* The derived `time` display string (`toLocaleTimeString`) is a locale
  rendering of `timestamp`; no claim concerns it, and it is not modelled.
-/

namespace PlantAGI

/-- One point of the live window, as built by `generateNewDataPoint` and by
the seeding code: an epoch-millisecond timestamp plus the five metrics. -/
structure SensorSample where
  timestamp : ℕ
  Torque : ℚ
  Temperature : ℚ
  Speed : ℚ
  Vibration : ℚ
  current_tool_wear_pct : ℚ
deriving DecidableEq

/-- The carried previous metric values (`prevValuesRef.current`). -/
structure CarryValues where
  Torque : ℚ
  Temperature : ℚ
  Speed : ℚ
  Vibration : ℚ
  current_tool_wear_pct : ℚ
deriving DecidableEq

/-- One record of the history API response: a time plus optional metric
fields (`none` models an absent field). -/
structure HistRecord where
  time : ℕ
  Torque : Option ℚ
  Temperature : Option ℚ
  Speed : Option ℚ
  Vibration : Option ℚ
  tool_wear_pct : Option ℚ
deriving DecidableEq

/-- The ambient JavaScript environment: the stream of `Math.random()`
results, the `Math.sin` / `Math.cos` functions and the `Date.now()`
clock, sampled per tick number. -/
structure Env where
  rand : ℕ → ℚ
  jsSin : ℚ → ℚ
  jsCos : ℚ → ℚ
  now : ℕ → ℕ

/-- Sliding-window capacity (`const MAX_DATA_POINTS = 100`). -/
def MAX_DATA_POINTS : ℕ := 100

/-- The documented per-metric defaults: the initial value of
`prevValuesRef.current` and the value restored on a range reset. -/
def initialCarry : CarryValues :=
  { Torque := 40
    Temperature := 300
    Speed := 2800
    Vibration := 0.5
    current_tool_wear_pct := 35 }

/-- JavaScript `Math.max(lo, Math.min(hi, x))`. -/
def clamp (lo hi x : ℚ) : ℚ := max lo (min hi x)

/-- JavaScript `Number(x.toFixed(k))`: round to the nearest multiple of
`10 ^ (-k)`, ties up (the ECMAScript rule picks the larger candidate on
a tie, which is exactly half-up rounding, `⌊y + 1/2⌋`). -/
def roundTo (k : ℕ) (x : ℚ) : ℚ := (⌊x * 10 ^ k + 1/2⌋ : ℤ) / 10 ^ k

/-- JavaScript `arr.slice(-n)`: the last `min n arr.length` elements. -/
def sliceLast (n : ℕ) (l : List α) : List α := l.drop (l.length - n)

/-- JavaScript `x || d` on an optional numeric field: an absent field and
a present field equal to `0` are both falsy and yield the default. -/
def jsOr (o : Option ℚ) (d : ℚ) : ℚ :=
  match o with
  | none => d
  | some v => if v = 0 then d else v

/-- `Math.sin(tickCount * 0.3) * 0.5`. -/
def oscillation (env : Env) (tc : ℕ) : ℚ := env.jsSin ((tc : ℚ) * 0.3) * 0.5

/-- `Math.sin(tickCount * 0.7) * 0.3`. -/
def tremor (env : Env) (tc : ℕ) : ℚ := env.jsSin ((tc : ℚ) * 0.7) * 0.3

/-- The unrounded next torque value of one tick. -/
def nextTorque (env : Env) (tc : ℕ) (prev : ℚ) : ℚ :=
  clamp 25 55 (prev + (env.rand (5 * tc) - 0.5) * 6 + oscillation env tc * 3)

/-- The unrounded next temperature value of one tick. -/
def nextTemp (env : Env) (tc : ℕ) (prev : ℚ) : ℚ :=
  clamp 290 315 (prev + (env.rand (5 * tc + 1) - 0.5) * 3 + tremor env tc * 2)

/-- The unrounded next speed value of one tick. -/
def nextSpeed (env : Env) (tc : ℕ) (prev : ℚ) : ℚ :=
  clamp 2650 2950 (prev + (env.rand (5 * tc + 2) - 0.5) * 80 + oscillation env tc * 30)

/-- The unrounded next vibration value of one tick. -/
def nextVibration (env : Env) (tc : ℕ) (prev : ℚ) : ℚ :=
  clamp 0.25 0.85 (prev + (env.rand (5 * tc + 3) - 0.5) * 0.15 + tremor env tc * 0.05)

/-- `wearIncrement = 0.2 + Math.random() * 0.4 + Math.abs(oscillation) * 0.3`. -/
def wearIncrement (env : Env) (tc : ℕ) : ℚ :=
  0.2 + env.rand (5 * tc + 4) * 0.4 + |oscillation env tc| * 0.3

/-- `Math.min(95, Math.max(5, prev + wearIncrement))`. -/
def nextToolWear (env : Env) (tc : ℕ) (prev : ℚ) : ℚ :=
  min 95 (max 5 (prev + wearIncrement env tc))

/-- `generateNewDataPoint` at tick number `tc`: the returned sample
(display-rounded values plus the current timestamp) together with the
new `prevValuesRef.current` (the same values, unrounded). -/
def generateNewDataPoint (env : Env) (tc : ℕ) (prev : CarryValues) :
    SensorSample × CarryValues :=
  ({ timestamp := env.now tc
     Torque := roundTo 1 (nextTorque env tc prev.Torque)
     Temperature := roundTo 1 (nextTemp env tc prev.Temperature)
     Speed := roundTo 0 (nextSpeed env tc prev.Speed)
     Vibration := roundTo 2 (nextVibration env tc prev.Vibration)
     current_tool_wear_pct := roundTo 1 (nextToolWear env tc prev.current_tool_wear_pct) },
   { Torque := nextTorque env tc prev.Torque
     Temperature := nextTemp env tc prev.Temperature
     Speed := nextSpeed env tc prev.Speed
     Vibration := nextVibration env tc prev.Vibration
     current_tool_wear_pct := nextToolWear env tc prev.current_tool_wear_pct })

/-- The mutable state of one streaming effect instance: the window state
`historyData`, the carry ref `prevValuesRef.current` and the closure
counter `tickCount`. -/
structure BufferState where
  historyData : List SensorSample
  prevValues : CarryValues
  tickCount : ℕ
deriving DecidableEq

/-- The state at mount: empty window, default carry, `tickCount = 0`. -/
def initState : BufferState :=
  { historyData := [], prevValues := initialCarry, tickCount := 0 }

/-- One firing of the 5-second interval callback: increment `tickCount`,
generate a sample, append it and keep the last `MAX_DATA_POINTS` entries
(`[...prevData, newPoint].slice(-MAX_DATA_POINTS)`). -/
def tick (env : Env) (s : BufferState) : BufferState :=
  { historyData := sliceLast MAX_DATA_POINTS
      (s.historyData ++ [(generateNewDataPoint env (s.tickCount + 1) s.prevValues).1])
    prevValues := (generateNewDataPoint env (s.tickCount + 1) s.prevValues).2
    tickCount := s.tickCount + 1 }

/-- `n` consecutive interval firings. -/
def run (env : Env) (s : BufferState) : ℕ → BufferState
  | 0 => s
  | n + 1 => tick env (run env s n)

/-- Normalization of one fetched history record into a sample,
substituting the documented default for every falsy field
(`Torque: d.Torque || 40`, and so on). -/
def normalizeRecord (d : HistRecord) : SensorSample :=
  { timestamp := d.time
    Torque := jsOr d.Torque 40
    Temperature := jsOr d.Temperature 300
    Speed := jsOr d.Speed 2800
    Vibration := jsOr d.Vibration 0.5
    current_tool_wear_pct := jsOr d.tool_wear_pct 35 }

/-- `data.slice(-50).map(...)`: the seeded window built from a fetched
history batch. -/
def seedWindow (data : List HistRecord) : List SensorSample :=
  (sliceLast 50 data).map normalizeRecord

/-- The carry values copied from a seeded sample (the assignment of
`prevValuesRef.current` from `lastPoint`). -/
def carryOfSample (p : SensorSample) : CarryValues :=
  { Torque := p.Torque
    Temperature := p.Temperature
    Speed := p.Speed
    Vibration := p.Vibration
    current_tool_wear_pct := p.current_tool_wear_pct }

/-- Outcome of the seed fetch as observed by `initializeAndStream`:
a rejected fetch or malformed JSON (caught by the `catch`), a non-OK
status, a JSON body that is not an array, or a parsed array of records. -/
inductive FetchResult where
  | netError
  | notOk
  | notArray
  | ok (data : List HistRecord)
deriving DecidableEq

/-- Effect of the seed-fetch completion of `initializeAndStream` on the
buffer state. `m` is the `isMounted` liveness flag at arrival time. The
window and carry are replaced only when the response is an OK, non-empty
array and the flag is still set; every other outcome leaves the state
untouched (the failure is only logged). -/
def initializeAndStream (m : Bool) (res : FetchResult) (s : BufferState) :
    BufferState :=
  match res with
  | FetchResult.ok data =>
      if data.isEmpty || !m then s
      else
        match (seedWindow data).getLast? with
        | some lastPoint =>
            { s with historyData := seedWindow data
                     prevValues := carryOfSample lastPoint }
        | none => { s with historyData := seedWindow data }
  | _ => s

/-- Effect of the `[timeRange]` reset effect: `setHistoryData([])` and
restore `prevValuesRef.current` to the documented defaults. (The main
effect then restarts the fetch and the interval with a fresh closure.) -/
def resetRange (s : BufferState) : BufferState :=
  { s with historyData := [], prevValues := initialCarry }

/-- The 20-point mock run substituted by the `combinedData` memo when the
window is empty: `now` is `new Date()` at evaluation time, index `i`
runs over `0..19`, and each point draws five fresh `Math.random()`
values. -/
def mockBase (env : Env) (now : ℕ) : List SensorSample :=
  (List.range 20).map fun i =>
    { timestamp := now - (20 - i) * 3 * 60 * 1000
      Torque := 40 + env.jsSin ((i : ℚ) / 3) * 5 + (env.rand (5 * i) - 0.5) * 2
      Temperature := 300 + env.jsSin ((i : ℚ) / 4) * 3 + (env.rand (5 * i + 1) - 0.5)
      Speed := 2800 + env.jsCos ((i : ℚ) / 5) * 100 + (env.rand (5 * i + 2) - 0.5) * 20
      Vibration := 0.4 + env.rand (5 * i + 3) * 0.3
      current_tool_wear_pct := 30 + (i : ℚ) * 0.5 + (env.rand (5 * i + 4) * 4 - 2) }

/-- The `combinedData` memo: the window itself when non-empty, otherwise
the freshly generated mock run. -/
def combinedData (env : Env) (now : ℕ) (historyData : List SensorSample) :
    List SensorSample :=
  if historyData.isEmpty then mockBase env now else historyData

/-- A streaming-effect instance together with its `isMounted` flag. -/
structure LiveState where
  buf : BufferState
  isMounted : Bool
deriving DecidableEq

/-- The events that can touch one effect instance: an interval firing,
the arrival of the seed-fetch result, and the cleanup run when a newer
initialize (subject or range change, unmount) starts. -/
inductive BufferEvent where
  | tick
  | seedArrive (res : FetchResult)
  | cleanup
deriving DecidableEq

/-- Small-step semantics of one effect instance. The interval callback
returns immediately when the flag is cleared; the seed arrival goes
through `initializeAndStream` guarded by the flag; cleanup clears the
flag (and, in the source, also clears the interval). -/
def stepEvent (env : Env) : BufferEvent → LiveState → LiveState
  | BufferEvent.tick, s =>
      if s.isMounted then { s with buf := tick env s.buf } else s
  | BufferEvent.seedArrive res, s =>
      { s with buf := initializeAndStream s.isMounted res s.buf }
  | BufferEvent.cleanup, s => { s with isMounted := false }

/-- The carry values after `n` ticks from the mounted initial state. -/
def carryAfter (env : Env) : ℕ → CarryValues
  | 0 => initialCarry
  | n + 1 => (generateNewDataPoint env (n + 1) (carryAfter env n)).2

/-- The sample generated by the k-th tick from the mounted initial state
(meaningful for `k ≥ 1`; the `k = 0` case is a junk value). -/
def genSample (env : Env) : ℕ → SensorSample
  | 0 => (generateNewDataPoint env 0 initialCarry).1
  | n + 1 => (generateNewDataPoint env (n + 1) (carryAfter env n)).1

/-- Ordering of a window by non-decreasing timestamp. -/
def TsSorted (l : List SensorSample) : Prop :=
  l.Pairwise fun a b => a.timestamp ≤ b.timestamp

/-- Non-decreasing wear percentage across a window. -/
def WearSorted (l : List SensorSample) : Prop :=
  l.Pairwise fun a b => a.current_tool_wear_pct ≤ b.current_tool_wear_pct

/-- Witness environment: every random draw is 1/2, the trigonometric
evaluations are 0 and the clock is the tick number. -/
def envW : Env :=
  { rand := fun _ => 1/2, jsSin := fun _ => 0, jsCos := fun _ => 0
    now := fun t => t }

/-- Counterexample environment: every random draw is 0. -/
def envA : Env :=
  { rand := fun _ => 0, jsSin := fun _ => 0, jsCos := fun _ => 0
    now := fun t => t }

/-- Counterexample environment: every random draw is 1/2. -/
def envB : Env :=
  { rand := fun _ => 1/2, jsSin := fun _ => 0, jsCos := fun _ => 0
    now := fun t => t }

/-- A partially populated history record with a present, non-zero torque. -/
def recW : HistRecord :=
  { time := 500, Torque := some 42, Temperature := none, Speed := some 3000
    Vibration := none, tool_wear_pct := some 88 }

/-- A history record whose torque field is present but equal to 0. -/
def recZero : HistRecord :=
  { time := 1000, Torque := some 0, Temperature := none, Speed := none
    Vibration := none, tool_wear_pct := none }

/-- A history record with every metric field present and equal to 0. -/
def recAllZero : HistRecord :=
  { time := 2000, Torque := some 0, Temperature := some 0, Speed := some 0
    Vibration := some 0, tool_wear_pct := some 0 }

/-- The sample generated by the first tick under `envW`. -/
def sampleW : SensorSample :=
  { timestamp := 1, Torque := 40, Temperature := 300, Speed := 2800
    Vibration := 0.5, current_tool_wear_pct := 35.4 }

/-- A full window of 100 samples, for exercising the eviction step. -/
def state100 : BufferState :=
  { historyData := List.replicate 100 sampleW
    prevValues := initialCarry
    tickCount := 0 }

/-! ### Generic facts about the window operations -/

theorem length_sliceLast (n : ℕ) (l : List α) :
    (sliceLast n l).length = min l.length n := by
  simp only [sliceLast, List.length_drop]
  omega

theorem sliceLast_sublist (n : ℕ) (l : List α) : (sliceLast n l).Sublist l :=
  List.drop_sublist _ _

theorem mem_of_mem_sliceLast {n : ℕ} {l : List α} {a : α}
    (h : a ∈ sliceLast n l) : a ∈ l :=
  (sliceLast_sublist n l).subset h

theorem sliceLast_append_one {m : ℕ} (hm : 0 < m) (l : List α) (a : α) :
    sliceLast m (sliceLast m l ++ [a]) = sliceLast m (l ++ [a]) := by
  simp only [sliceLast, List.length_append, List.length_drop,
    List.length_singleton]
  rcases le_or_lt l.length m with h | h
  · have z1 : l.length - m = 0 := by omega
    rw [z1, List.drop_zero]
    have e : l.length - 0 + 1 - m = l.length + 1 - m := by omega
    rw [e]
  · have e1 : l.length - (l.length - m) + 1 - m = 1 := by omega
    have e2 : l.length + 1 - m = (l.length - m) + 1 := by omega
    rw [e1, e2,
      List.drop_append_of_le_length (by rw [List.length_drop]; omega),
      List.drop_append_of_le_length (by omega), List.drop_drop]

theorem le_clamp (lo hi x : ℚ) : lo ≤ clamp lo hi x := le_max_left _ _

theorem clamp_le {lo hi : ℚ} (x : ℚ) (h : lo ≤ hi) : clamp lo hi x ≤ hi :=
  max_le h (min_le_left _ _)

theorem roundTo_mono (k : ℕ) {x y : ℚ} (h : x ≤ y) :
    roundTo k x ≤ roundTo k y := by
  have h10 : (0 : ℚ) < 10 ^ k := by positivity
  have hf : (⌊x * 10 ^ k + 1/2⌋ : ℤ) ≤ ⌊y * 10 ^ k + 1/2⌋ := by
    apply Int.floor_le_floor
    have := mul_le_mul_of_nonneg_right h h10.le
    linarith
  unfold roundTo
  exact (div_le_div_iff_of_pos_right h10).mpr (by exact_mod_cast hf)

theorem roundTo_le_of_le {k : ℕ} {x b : ℚ} (h : x ≤ b) (hb : roundTo k b = b) :
    roundTo k x ≤ b := hb ▸ roundTo_mono k h

theorem le_roundTo_of_le {k : ℕ} {a x : ℚ} (h : a ≤ x) (ha : roundTo k a = a) :
    a ≤ roundTo k x := ha ▸ roundTo_mono k h

/-! ### The per-tick sample, carry and window-step facts -/

theorem tick_getLast (env : Env) (s : BufferState) :
    (tick env s).historyData.getLast?
      = some (generateNewDataPoint env (s.tickCount + 1) s.prevValues).1 := by
  show (sliceLast MAX_DATA_POINTS _).getLast? = _
  rw [sliceLast, List.drop_append_of_le_length
    (by simp only [List.length_append, List.length_singleton, MAX_DATA_POINTS]
        omega),
    List.getLast?_concat]

theorem length_tick (env : Env) (s : BufferState) :
    (tick env s).historyData.length = min (s.historyData.length + 1) 100 := by
  show (sliceLast MAX_DATA_POINTS _).length = _
  rw [length_sliceLast, List.length_append, MAX_DATA_POINTS]
  simp

theorem run_length (env : Env) (s0 : BufferState)
    (h : s0.historyData.length ≤ 100) (n : ℕ) :
    (run env s0 n).historyData.length = min (s0.historyData.length + n) 100 := by
  induction n with
  | zero =>
      show s0.historyData.length = min (s0.historyData.length + 0) 100
      omega
  | succ n ih =>
      show (tick env (run env s0 n)).historyData.length = _
      rw [length_tick, ih]
      omega

/-! ### Claim C6: a range reset fully discards window and carry -/

/-- Claim C6: Reset with a new time range discards the prior window and
carry state entirely: afterwards the window is empty (hence no earlier
sample appears in it) and the carry values are the documented per-metric
defaults (Torque 40, Temperature 300, Speed 2800, Vibration 0.5,
wear 35), with no residual values. -/
theorem C6_reset_discards (s : BufferState) :
    (resetRange s).historyData = []
    ∧ (∀ x ∈ s.historyData, x ∉ (resetRange s).historyData)
    ∧ (resetRange s).prevValues = initialCarry :=
  ⟨rfl, fun x _ hx => List.not_mem_nil x hx, rfl⟩

/-- Witness for C6 at a concrete full buffer state. -/
theorem C6_reset_witness :
    (resetRange state100).historyData = []
    ∧ (resetRange state100).prevValues = initialCarry
    ∧ sampleW ∉ (resetRange state100).historyData := by
  have h := C6_reset_discards state100
  exact ⟨h.1, h.2.2, h.2.1 sampleW (by simp [state100])⟩

/-! ### Claim C7: carry versus appended sample (display rounding) -/

/-- Counterexample to claim C7 as stated: after one tick under the
environment whose random draws are all 0, the single sample in the
window carries `Vibration = 0.43` (the `toFixed(2)` display rounding)
while the carry state holds the unrounded `0.425`, so the carry does not
equal the appended sample metric for metric. -/
theorem C7_counterexample :
    (tick envA initState).historyData.map SensorSample.Vibration
      ≠ [(tick envA initState).prevValues.Vibration] := by
  have hwin : (tick envA initState).historyData
      = [(generateNewDataPoint envA 1 initialCarry).1] := by
    show sliceLast MAX_DATA_POINTS ([] ++ [_]) = _
    simp only [sliceLast, MAX_DATA_POINTS, List.nil_append, List.length_singleton]
    rfl
  have hv1 : (generateNewDataPoint envA 1 initialCarry).1.Vibration = 0.43 := by
    show roundTo 2 (nextVibration envA 1 initialCarry.Vibration) = 0.43
    norm_num [nextVibration, envA, initialCarry, tremor, clamp, roundTo,
      min_def, max_def]
  have hv2 : (tick envA initState).prevValues.Vibration = 0.425 := by
    show nextVibration envA 1 initialCarry.Vibration = 0.425
    norm_num [nextVibration, envA, initialCarry, tremor, clamp, min_def, max_def]
  rw [hwin, hv2, List.map_cons, List.map_nil, hv1]
  intro hc
  simp only [List.cons.injEq, and_true] at hc
  norm_num at hc

/-- Claim C7 amended: after every tick the carry state is replaced with
the unrounded metric values of the tick, and the sample appended to the
window holds exactly those values after display rounding (`toFixed`: one
decimal for Torque, Temperature and wear, zero for Speed, two for
Vibration); the appended sample is the last window element. -/
theorem C7_carry_rounding (env : Env) (tc : ℕ) (prev : CarryValues)
    (s : BufferState) :
    (generateNewDataPoint env tc prev).1.Torque
        = roundTo 1 (generateNewDataPoint env tc prev).2.Torque
    ∧ (generateNewDataPoint env tc prev).1.Temperature
        = roundTo 1 (generateNewDataPoint env tc prev).2.Temperature
    ∧ (generateNewDataPoint env tc prev).1.Speed
        = roundTo 0 (generateNewDataPoint env tc prev).2.Speed
    ∧ (generateNewDataPoint env tc prev).1.Vibration
        = roundTo 2 (generateNewDataPoint env tc prev).2.Vibration
    ∧ (generateNewDataPoint env tc prev).1.current_tool_wear_pct
        = roundTo 1 (generateNewDataPoint env tc prev).2.current_tool_wear_pct
    ∧ (tick env s).prevValues
        = (generateNewDataPoint env (s.tickCount + 1) s.prevValues).2
    ∧ (tick env s).historyData.getLast?
        = some (generateNewDataPoint env (s.tickCount + 1) s.prevValues).1 :=
  ⟨rfl, rfl, rfl, rfl, rfl, rfl, tick_getLast env s⟩

/-- Witness for C7 at the witness environment and the mount state. -/
theorem C7_carry_witness :
    (generateNewDataPoint envW 1 initialCarry).1.Torque
        = roundTo 1 (generateNewDataPoint envW 1 initialCarry).2.Torque
    ∧ (tick envW initState).prevValues
        = (generateNewDataPoint envW (initState.tickCount + 1)
            initState.prevValues).2
    ∧ (tick envW initState).historyData.getLast?
        = some (generateNewDataPoint envW (initState.tickCount + 1)
            initState.prevValues).1 := by
  have h := C7_carry_rounding envW 1 initialCarry initState
  exact ⟨h.1, h.2.2.2.2.2.1, h.2.2.2.2.2.2⟩

/-! ### Claim C8: failed or empty seed fetch leaves the buffer untouched -/

/-- Claim C8: when the seed fetch fails (rejected fetch or malformed
JSON, non-OK status, non-array body) or returns an empty array, the
state is unchanged: from the mount state the window stays empty and the
carry keeps its defaults, and subsequent ticks behave exactly as in
synthetic-only mode. No error escapes: the outcome is a total state
transformation (the source only logs a warning). -/
theorem C8_seed_failure (env : Env) (m : Bool) (s : BufferState)
    (res : FetchResult)
    (hfail : res = FetchResult.netError ∨ res = FetchResult.notOk
      ∨ res = FetchResult.notArray ∨ res = FetchResult.ok []) :
    initializeAndStream m res s = s
    ∧ (initializeAndStream m res initState).historyData = []
    ∧ (initializeAndStream m res initState).prevValues = initialCarry
    ∧ ∀ n : ℕ, run env (initializeAndStream m res initState) n
        = run env initState n := by
  have hid : ∀ t : BufferState, initializeAndStream m res t = t := by
    intro t
    rcases hfail with h | h | h | h <;> subst h <;> simp [initializeAndStream]
  refine ⟨hid s, ?_, ?_, ?_⟩
  · rw [hid initState]; rfl
  · rw [hid initState]; rfl
  · intro n; rw [hid initState]

/-- Witness for C8 at a concrete failing fetch over a concrete state. -/
theorem C8_seed_witness :
    initializeAndStream true (FetchResult.ok []) state100 = state100
    ∧ (initializeAndStream true (FetchResult.ok []) initState).historyData = []
    ∧ (initializeAndStream true (FetchResult.ok []) initState).prevValues
        = initialCarry
    ∧ run envW (initializeAndStream true (FetchResult.ok []) initState) 2
        = run envW initState 2 := by
  have h := C8_seed_failure envW true state100 (FetchResult.ok [])
    (Or.inr (Or.inr (Or.inr rfl)))
  exact ⟨h.1, h.2.1, h.2.2.1, h.2.2.2 2⟩

/-! ### Claims C9 and C10: per-field seed normalization -/

/-- Counterexample to claim C9 as stated: a history record whose Torque
field is present with the legitimate value 0 is not kept; the falsy
coercion `d.Torque || 40` replaces it with the default 40. -/
theorem C9_counterexample :
    recZero.Torque = some 0 ∧ (normalizeRecord recZero).Torque = 40
      ∧ (40 : ℚ) ≠ 0 := by
  refine ⟨rfl, ?_, by norm_num⟩
  simp [normalizeRecord, recZero, jsOr]

/-- Claim C9 amended: during seeding each record is recovered per-field:
a missing metric field is replaced by the documented default, a present
non-zero field is kept (a present zero is coerced to the default, see
C10), and no record is ever dropped: the seeded window maps every record
of the last-50 slice individually and has length `min n 50`. -/
theorem C9_perfield_defaults (d : HistRecord) (data : List HistRecord) :
    ((d.Torque = none → (normalizeRecord d).Torque = 40)
      ∧ (d.Temperature = none → (normalizeRecord d).Temperature = 300)
      ∧ (d.Speed = none → (normalizeRecord d).Speed = 2800)
      ∧ (d.Vibration = none → (normalizeRecord d).Vibration = 0.5)
      ∧ (d.tool_wear_pct = none → (normalizeRecord d).current_tool_wear_pct = 35))
    ∧ (∀ v : ℚ, v ≠ 0 →
        (d.Torque = some v → (normalizeRecord d).Torque = v)
        ∧ (d.Temperature = some v → (normalizeRecord d).Temperature = v)
        ∧ (d.Speed = some v → (normalizeRecord d).Speed = v)
        ∧ (d.Vibration = some v → (normalizeRecord d).Vibration = v)
        ∧ (d.tool_wear_pct = some v → (normalizeRecord d).current_tool_wear_pct = v))
    ∧ (seedWindow data).length = min data.length 50
    ∧ (d ∈ sliceLast 50 data → normalizeRecord d ∈ seedWindow data) := by
  refine ⟨⟨?_, ?_, ?_, ?_, ?_⟩, ?_, ?_, ?_⟩
  · intro h; simp [normalizeRecord, jsOr, h]
  · intro h; simp [normalizeRecord, jsOr, h]
  · intro h; simp [normalizeRecord, jsOr, h]
  · intro h; simp [normalizeRecord, jsOr, h]
  · intro h; simp [normalizeRecord, jsOr, h]
  · intro v hv
    refine ⟨?_, ?_, ?_, ?_, ?_⟩ <;>
      · intro h; simp [normalizeRecord, jsOr, h, hv]
  · rw [seedWindow, List.length_map, length_sliceLast]
  · intro h
    exact List.mem_map_of_mem normalizeRecord h

/-- Witness for C9 at concrete records. -/
theorem C9_perfield_witness :
    (normalizeRecord recW).Temperature = 300
    ∧ (normalizeRecord recW).Torque = 42
    ∧ (seedWindow [recZero, recW]).length
        = min (List.length [recZero, recW]) 50
    ∧ normalizeRecord recW ∈ seedWindow [recZero, recW] := by
  have h := C9_perfield_defaults recW [recZero, recW]
  refine ⟨h.1.2.1 rfl, (h.2.1 42 (by norm_num)).1 rfl, h.2.2.1, ?_⟩
  exact h.2.2.2 (by simp [sliceLast])

/-- Claim C10: the seeding coercion `field || default` treats a present
zero value as falsy: it is normalized to the per-metric default, for all
five metric fields. -/
theorem C10_falsy_zero (d : HistRecord) :
    (d.Torque = some 0 → (normalizeRecord d).Torque = 40)
    ∧ (d.Temperature = some 0 → (normalizeRecord d).Temperature = 300)
    ∧ (d.Speed = some 0 → (normalizeRecord d).Speed = 2800)
    ∧ (d.Vibration = some 0 → (normalizeRecord d).Vibration = 0.5)
    ∧ (d.tool_wear_pct = some 0 → (normalizeRecord d).current_tool_wear_pct = 35) := by
  refine ⟨?_, ?_, ?_, ?_, ?_⟩ <;>
    · intro h; simp [normalizeRecord, jsOr, h]

/-- Witness for C10 at the all-zero record. -/
theorem C10_falsy_witness :
    (normalizeRecord recAllZero).Torque = 40
    ∧ (normalizeRecord recAllZero).Temperature = 300
    ∧ (normalizeRecord recAllZero).Speed = 2800
    ∧ (normalizeRecord recAllZero).Vibration = 0.5
    ∧ (normalizeRecord recAllZero).current_tool_wear_pct = 35 := by
  have h := C10_falsy_zero recAllZero
  exact ⟨h.1 rfl, h.2.1 rfl, h.2.2.1 rfl, h.2.2.2.1 rfl, h.2.2.2.2 rfl⟩

/-! ### Claim C4: the empty-window fallback -/

/-- Counterexample to claim C4 as stated: the fallback produced for an
empty window is not deterministic. Under the same empty window and the
same clock value, the environment whose random draws are all 0 and the
environment whose random draws are all 1/2 produce different fallback
sequences (their first points differ in Torque: 39 versus 40), because
the mock run draws fresh `Math.random()` values at every evaluation. -/
theorem C4_counterexample :
    combinedData envA 10000000 [] ≠ combinedData envB 10000000 [] := by
  have key : ∀ env : Env,
      ((combinedData env 10000000 []).map SensorSample.Torque).head?
        = some (40 + env.jsSin (((0:ℕ) : ℚ) / 3) * 5
            + (env.rand (5 * 0) - 0.5) * 2) := by
    intro env
    show ((mockBase env 10000000).map SensorSample.Torque).head? = _
    rw [mockBase, show (20:ℕ) = 19 + 1 from rfl, List.range_succ_eq_map]
    rfl
  intro h
  have h0 := congrArg (fun l => (l.map SensorSample.Torque).head?) h
  simp only at h0
  rw [key envA, key envB] at h0
  simp only [envA, envB, Option.some.injEq] at h0
  norm_num at h0

/-- Claim C4 amended: whenever the window is empty at display time the
component substitutes a non-empty fallback sequence of exactly 20
synthetic points, and the substitution is a total function (no
exception); however the fallback is freshly generated from the current
clock and fresh random draws, so it is not deterministic across
evaluations (see the counterexample). -/
theorem C4_fallback (env : Env) (now : ℕ) (h : List SensorSample)
    (he : h = []) :
    (combinedData env now h).length = 20 ∧ combinedData env now h ≠ [] := by
  subst he
  have hlen : (combinedData env now []).length = 20 := by
    show (mockBase env now).length = 20
    rw [mockBase, List.length_map, List.length_range]
  refine ⟨hlen, ?_⟩
  intro hc
  rw [hc] at hlen
  simp at hlen

/-- Witness for C4 at a concrete clock value. -/
theorem C4_fallback_witness :
    (combinedData envW 10000000 []).length = 20
    ∧ combinedData envW 10000000 [] ≠ [] :=
  C4_fallback envW 10000000 [] rfl

/-! ### Claim C5: interleaving of the seed fetch with ticks -/

/-- Claim C5: in every interleaving of the asynchronous seed fetch with
ticks, (1) a tick firing before the seed resolves operates on the
not-yet-seeded carry and window via the ordinary tick function; (2) a
successful non-empty seed arriving while the effect is live overwrites
the window and the carry outright with the seeded data — the result does
not depend on the prior buffer state, however many ticks happened
meanwhile (last-writer-wins); (3) a seed result arriving after the
cleanup of a superseded effect (liveness flag cleared) is discarded and
mutates neither window nor carry; (4) cleanup clears the liveness flag. -/
theorem C5_seed_interleaving (env : Env) :
    (∀ s : LiveState, s.isMounted = true →
        stepEvent env BufferEvent.tick s = { s with buf := tick env s.buf })
    ∧ (∀ (s : LiveState) (data : List HistRecord),
        s.isMounted = true → data ≠ [] →
        (stepEvent env (BufferEvent.seedArrive (FetchResult.ok data)) s).buf.historyData
            = seedWindow data
          ∧ ∃ lp, (seedWindow data).getLast? = some lp
              ∧ (stepEvent env (BufferEvent.seedArrive (FetchResult.ok data)) s).buf.prevValues
                  = carryOfSample lp)
    ∧ (∀ (s : LiveState) (res : FetchResult), s.isMounted = false →
        stepEvent env (BufferEvent.seedArrive res) s = s)
    ∧ (∀ s : LiveState, (stepEvent env BufferEvent.cleanup s).isMounted = false) := by
  refine ⟨?_, ?_, ?_, fun s => rfl⟩
  · intro s hs
    simp [stepEvent, hs]
  · intro s data hs hdata
    have hne : seedWindow data ≠ [] := by
      intro hc
      have := congrArg List.length hc
      rw [seedWindow, List.length_map, length_sliceLast] at this
      simp at this
      exact hdata this
    have hsome : (seedWindow data).getLast?.isSome = true :=
      List.getLast?_isSome.mpr hne
    rcases hlast : (seedWindow data).getLast? with _ | lp
    · rw [hlast] at hsome; simp at hsome
    · have hempty : data.isEmpty = false := by
        rcases data with _ | ⟨d, ds⟩
        · exact absurd rfl hdata
        · rfl
      constructor
      · simp [stepEvent, initializeAndStream, hempty, hs, hlast]
      · exact ⟨lp, rfl, by simp [stepEvent, initializeAndStream, hempty, hs, hlast]⟩
  · intro s res hs
    have : initializeAndStream s.isMounted res s.buf = s.buf := by
      rcases res with _ | _ | _ | data <;> simp [initializeAndStream, hs]
    simp [stepEvent, this]

/-- Witness for C5 at concrete states, a concrete seed batch and a
concrete late-arriving result. -/
theorem C5_seed_witness :
    stepEvent envW BufferEvent.tick { buf := initState, isMounted := true }
        = { buf := tick envW initState, isMounted := true }
    ∧ (stepEvent envW (BufferEvent.seedArrive (FetchResult.ok [recW]))
          { buf := state100, isMounted := true }).buf.historyData
        = seedWindow [recW]
    ∧ stepEvent envW (BufferEvent.seedArrive FetchResult.netError)
          { buf := state100, isMounted := false }
        = { buf := state100, isMounted := false }
    ∧ (stepEvent envW BufferEvent.cleanup
          { buf := initState, isMounted := true }).isMounted = false := by
  obtain ⟨h1, h2, h3, h4⟩ := C5_seed_interleaving envW
  exact ⟨h1 _ rfl, (h2 _ [recW] rfl (by simp)).1, h3 _ _ rfl, h4 _⟩

/-! ### Characterization of tick-only runs from the mount state -/

theorem run_init_spec (env : Env) (n : ℕ) :
    (run env initState n).historyData
        = sliceLast MAX_DATA_POINTS ((List.range' 1 n).map (genSample env))
    ∧ (run env initState n).prevValues = carryAfter env n
    ∧ (run env initState n).tickCount = n := by
  induction n with
  | zero => exact ⟨rfl, rfl, rfl⟩
  | succ n ih =>
      obtain ⟨hw, hc, ht⟩ := ih
      refine ⟨?_, ?_, ?_⟩
      · show sliceLast MAX_DATA_POINTS
            ((run env initState n).historyData
              ++ [(generateNewDataPoint env ((run env initState n).tickCount + 1)
                    (run env initState n).prevValues).1]) = _
        rw [hw, hc, ht, List.range'_concat, List.map_append,
          sliceLast_append_one (by norm_num [MAX_DATA_POINTS])]
        congr 1
        simp only [List.map_cons, List.map_nil]
        have harg : 1 + 1 * n = n + 1 := by omega
        rw [harg]
        rfl
      · show (generateNewDataPoint env ((run env initState n).tickCount + 1)
            (run env initState n).prevValues).2 = _
        rw [hc, ht]
        rfl
      · show (run env initState n).tickCount + 1 = n + 1
        rw [ht]

theorem run_one_window (env : Env) :
    (run env initState 1).historyData = [genSample env 1] := by
  rw [(run_init_spec env 1).1]
  rfl

/-! ### Timestamp ordering under a monotone clock -/

theorem tick_sorted (env : Env) (hmono : Monotone env.now) (s : BufferState)
    (h1 : TsSorted s.historyData)
    (h2 : ∀ a ∈ s.historyData, a.timestamp ≤ env.now (s.tickCount + 1)) :
    TsSorted (tick env s).historyData
    ∧ ∀ a ∈ (tick env s).historyData,
        a.timestamp ≤ env.now ((tick env s).tickCount + 1) := by
  have hp : TsSorted (s.historyData
      ++ [(generateNewDataPoint env (s.tickCount + 1) s.prevValues).1]) := by
    simp only [TsSorted] at h1 ⊢
    rw [List.pairwise_append]
    refine ⟨h1, List.pairwise_singleton _ _, ?_⟩
    intro a ha b hb
    rw [List.mem_singleton] at hb
    subst hb
    exact h2 a ha
  constructor
  · exact List.Pairwise.sublist (sliceLast_sublist _ _) hp
  · intro a ha
    have ha' := mem_of_mem_sliceLast ha
    rw [List.mem_append] at ha'
    have step : env.now (s.tickCount + 1) ≤ env.now (s.tickCount + 1 + 1) :=
      hmono (Nat.le_succ _)
    rcases ha' with h | h
    · exact le_trans (h2 a h) step
    · rw [List.mem_singleton] at h
      subst h
      exact step

theorem run_sorted (env : Env) (hmono : Monotone env.now) (s0 : BufferState)
    (h1 : TsSorted s0.historyData)
    (h2 : ∀ a ∈ s0.historyData, a.timestamp ≤ env.now (s0.tickCount + 1))
    (n : ℕ) :
    TsSorted (run env s0 n).historyData
    ∧ ∀ a ∈ (run env s0 n).historyData,
        a.timestamp ≤ env.now ((run env s0 n).tickCount + 1) := by
  induction n with
  | zero => exact ⟨h1, h2⟩
  | succ n ih => exact tick_sorted env hmono _ ih.1 ih.2

/-! ### Wear accumulation facts -/

theorem carry_wear_le_95 (env : Env) :
    ∀ n : ℕ, (carryAfter env n).current_tool_wear_pct ≤ 95
  | 0 => by norm_num [carryAfter, initialCarry]
  | n + 1 => min_le_left _ _

theorem carry_wear_step (env : Env) (hrand : ∀ i, 0 ≤ env.rand i) (n : ℕ) :
    (carryAfter env n).current_tool_wear_pct
      ≤ (carryAfter env (n + 1)).current_tool_wear_pct := by
  have h95 := carry_wear_le_95 env n
  show _ ≤ nextToolWear env (n + 1) (carryAfter env n).current_tool_wear_pct
  rw [nextToolWear]
  refine le_min h95 (le_max_of_le_right ?_)
  have hinc : 0 ≤ wearIncrement env (n + 1) := by
    rw [wearIncrement]
    have hr : 0 ≤ env.rand (5 * (n + 1) + 4) * 0.4 :=
      mul_nonneg (hrand _) (by norm_num)
    have ho : 0 ≤ |oscillation env (n + 1)| * 0.3 :=
      mul_nonneg (abs_nonneg _) (by norm_num)
    linarith
  linarith

theorem carry_wear_mono (env : Env) (hrand : ∀ i, 0 ≤ env.rand i) :
    Monotone fun n => (carryAfter env n).current_tool_wear_pct :=
  monotone_nat_of_le_succ (carry_wear_step env hrand)

theorem genSample_wear (env : Env) (n : ℕ) :
    (genSample env (n + 1)).current_tool_wear_pct
      = roundTo 1 (carryAfter env (n + 1)).current_tool_wear_pct := rfl

/-! ### Display-rounded endpoints of the documented metric ranges -/

theorem roundTo_25 : roundTo 1 (25 : ℚ) = 25 := by norm_num [roundTo]

theorem roundTo_55 : roundTo 1 (55 : ℚ) = 55 := by norm_num [roundTo]

theorem roundTo_290 : roundTo 1 (290 : ℚ) = 290 := by norm_num [roundTo]

theorem roundTo_315 : roundTo 1 (315 : ℚ) = 315 := by norm_num [roundTo]

theorem roundTo_2650 : roundTo 0 (2650 : ℚ) = 2650 := by norm_num [roundTo]

theorem roundTo_2950 : roundTo 0 (2950 : ℚ) = 2950 := by norm_num [roundTo]

theorem roundTo_vlo : roundTo 2 (0.25 : ℚ) = 0.25 := by norm_num [roundTo]

theorem roundTo_vhi : roundTo 2 (0.85 : ℚ) = 0.85 := by norm_num [roundTo]

theorem roundTo_95 : roundTo 1 (95 : ℚ) = 95 := by norm_num [roundTo]

/-- Every generated sample satisfies the documented clamped ranges,
whatever the carry and the environment. -/
theorem point_bounds (env : Env) (tc : ℕ) (prev : CarryValues) :
    (25 ≤ (generateNewDataPoint env tc prev).1.Torque
      ∧ (generateNewDataPoint env tc prev).1.Torque ≤ 55)
    ∧ (290 ≤ (generateNewDataPoint env tc prev).1.Temperature
      ∧ (generateNewDataPoint env tc prev).1.Temperature ≤ 315)
    ∧ (2650 ≤ (generateNewDataPoint env tc prev).1.Speed
      ∧ (generateNewDataPoint env tc prev).1.Speed ≤ 2950)
    ∧ (0.25 ≤ (generateNewDataPoint env tc prev).1.Vibration
      ∧ (generateNewDataPoint env tc prev).1.Vibration ≤ 0.85) := by
  refine ⟨⟨?_, ?_⟩, ⟨?_, ?_⟩, ⟨?_, ?_⟩, ⟨?_, ?_⟩⟩
  · exact le_roundTo_of_le (le_clamp _ _ _) roundTo_25
  · exact roundTo_le_of_le (clamp_le _ (by norm_num)) roundTo_55
  · exact le_roundTo_of_le (le_clamp _ _ _) roundTo_290
  · exact roundTo_le_of_le (clamp_le _ (by norm_num)) roundTo_315
  · exact le_roundTo_of_le (le_clamp _ _ _) roundTo_2650
  · exact roundTo_le_of_le (clamp_le _ (by norm_num)) roundTo_2950
  · exact le_roundTo_of_le (le_clamp _ _ _) roundTo_vlo
  · exact roundTo_le_of_le (clamp_le _ (by norm_num)) roundTo_vhi

/-- The sample generated by the first tick under `envW` is `sampleW`. -/
theorem genW1 : genSample envW 1 = sampleW := by
  show (generateNewDataPoint envW 1 initialCarry).1 = sampleW
  simp only [generateNewDataPoint, sampleW, SensorSample.mk.injEq]
  refine ⟨?_, ?_, ?_, ?_, ?_, ?_⟩ <;>
    norm_num [nextTorque, nextTemp, nextSpeed, nextVibration, nextToolWear,
      wearIncrement, oscillation, tremor, clamp, roundTo, envW, initialCarry,
      min_def, max_def]

/-! ### Claim C1: window length, ordering and FIFO eviction -/

/-- Claim C1: for every initial window of at most `N_max = 100` samples
and every sequence of `N` ticks the window length equals
`min (N_seed + N, 100)`; with a monotone clock and an initially
time-ordered window whose timestamps do not exceed the next tick time,
the window stays ordered by non-decreasing timestamp; when an append
would exceed the capacity, exactly the single oldest sample is dropped
(FIFO); and 150 ticks from the empty mount state leave exactly 100
samples whose first element is the 51st generated sample, carrying the
timestamp of tick 51. -/
theorem C1_window_invariants (env : Env) (hmono : Monotone env.now) :
    (∀ s0 : BufferState, s0.historyData.length ≤ 100 → ∀ n : ℕ,
        (run env s0 n).historyData.length = min (s0.historyData.length + n) 100)
    ∧ (∀ s0 : BufferState, TsSorted s0.historyData →
        (∀ a ∈ s0.historyData, a.timestamp ≤ env.now (s0.tickCount + 1)) →
        ∀ n : ℕ, TsSorted (run env s0 n).historyData)
    ∧ (∀ s : BufferState, s.historyData.length = MAX_DATA_POINTS →
        (tick env s).historyData
          = s.historyData.tail
              ++ [(generateNewDataPoint env (s.tickCount + 1) s.prevValues).1])
    ∧ ((run env initState 150).historyData.length = 100
        ∧ (run env initState 150).historyData.head? = some (genSample env 51)
        ∧ (genSample env 51).timestamp = env.now 51) := by
  refine ⟨fun s0 h n => run_length env s0 h n,
    fun s0 h1 h2 n => (run_sorted env hmono s0 h1 h2 n).1, ?_, ?_, ?_, rfl⟩
  · intro s hs
    show sliceLast MAX_DATA_POINTS (s.historyData ++ [_]) = _
    rw [sliceLast, List.length_append, List.length_singleton, hs]
    have e : MAX_DATA_POINTS + 1 - MAX_DATA_POINTS = 1 := by omega
    rw [e, List.drop_append_of_le_length
      (by rw [hs]; norm_num [MAX_DATA_POINTS]), List.drop_one]
  · have h := run_length env initState (by simp [initState]) 150
    simpa [initState] using h
  · rw [(run_init_spec env 150).1]
    have hL : ((List.range' 1 150).map (genSample env)).length = 150 := by
      rw [List.length_map, List.length_range']
    rw [sliceLast, hL]
    have e : 150 - MAX_DATA_POINTS = 50 := by norm_num [MAX_DATA_POINTS]
    rw [e, List.head?_drop, List.getElem?_map,
      List.getElem?_range' 1 1 (by norm_num)]
    norm_num

/-- Witness for C1 at the witness environment, concrete tick counts and
the concrete full buffer `state100`. -/
theorem C1_window_witness :
    (run envW initState 2).historyData.length
        = min (initState.historyData.length + 2) 100
    ∧ TsSorted (run envW initState 3).historyData
    ∧ (tick envW state100).historyData
        = state100.historyData.tail
            ++ [(generateNewDataPoint envW (state100.tickCount + 1)
                  state100.prevValues).1]
    ∧ (run envW initState 150).historyData.length = 100 := by
  obtain ⟨h1, h2, h3, h4⟩ := C1_window_invariants envW
    (by intro a b hab; exact hab)
  exact ⟨h1 initState (by simp [initState]) 2,
    h2 initState (by simp [TsSorted, initState]) (by simp [initState]) 3,
    h3 state100 (by simp [state100, MAX_DATA_POINTS]),
    h4.1⟩

/-! ### Claim C2: wear percentage is non-decreasing and capped at 95 -/

/-- Claim C2: for every sequence of ticks from the mount state (with the
random draws non-negative, as `Math.random()` guarantees), the wear
percentage is non-decreasing across consecutive window samples and never
exceeds its documented maximum of 95. -/
theorem C2_wear_monotone (env : Env) (hrand : ∀ i, 0 ≤ env.rand i) (n : ℕ) :
    WearSorted (run env initState n).historyData
    ∧ ∀ a ∈ (run env initState n).historyData,
        a.current_tool_wear_pct ≤ 95 := by
  have hw := (run_init_spec env n).1
  constructor
  · rw [hw]
    simp only [WearSorted]
    apply List.Pairwise.sublist (sliceLast_sublist _ _)
    rw [List.pairwise_map]
    apply List.Pairwise.imp_of_mem ?_ (List.pairwise_lt_range' 1 n)
    intro i j hi hj hij
    have hi1 : 1 ≤ i := (List.mem_range'_1.mp hi).1
    have hj1 : 1 ≤ j := (List.mem_range'_1.mp hj).1
    obtain ⟨i', rfl⟩ : ∃ i', i = i' + 1 := ⟨i - 1, by omega⟩
    obtain ⟨j', rfl⟩ : ∃ j', j = j' + 1 := ⟨j - 1, by omega⟩
    rw [genSample_wear, genSample_wear]
    exact roundTo_mono 1 (carry_wear_mono env hrand (by omega))
  · intro a ha
    rw [hw] at ha
    have ha2 := mem_of_mem_sliceLast ha
    rw [List.mem_map] at ha2
    obtain ⟨i, hi, rfl⟩ := ha2
    have hi1 : 1 ≤ i := (List.mem_range'_1.mp hi).1
    obtain ⟨i', rfl⟩ : ∃ i', i = i' + 1 := ⟨i - 1, by omega⟩
    rw [genSample_wear]
    exact roundTo_le_of_le (carry_wear_le_95 env _) roundTo_95

/-- Witness for C2 at the witness environment and one tick. -/
theorem C2_wear_witness :
    WearSorted (run envW initState 1).historyData
    ∧ sampleW.current_tool_wear_pct ≤ 95 := by
  have h := C2_wear_monotone envW (fun i => by norm_num [envW]) 1
  exact ⟨h.1, h.2 sampleW (by rw [run_one_window, genW1]; simp)⟩

/-! ### Claim C3: every tick-generated metric stays in its range -/

/-- Claim C3: after any number of ticks, every sample of the window of a
tick-only run satisfies the documented bounds: Torque in [25, 55],
Temperature in [290, 315], Speed in [2650, 2950] and Vibration in
[0.25, 0.85], for every environment. -/
theorem C3_metric_bounds (env : Env) (n : ℕ) :
    ∀ a ∈ (run env initState n).historyData,
      (25 ≤ a.Torque ∧ a.Torque ≤ 55)
      ∧ (290 ≤ a.Temperature ∧ a.Temperature ≤ 315)
      ∧ (2650 ≤ a.Speed ∧ a.Speed ≤ 2950)
      ∧ (0.25 ≤ a.Vibration ∧ a.Vibration ≤ 0.85) := by
  intro a ha
  rw [(run_init_spec env n).1] at ha
  have ha2 := mem_of_mem_sliceLast ha
  rw [List.mem_map] at ha2
  obtain ⟨i, hi, rfl⟩ := ha2
  rcases i with _ | k
  · exact point_bounds env 0 initialCarry
  · exact point_bounds env (k + 1) (carryAfter env k)

/-- Witness for C3 at the first generated sample under `envW`. -/
theorem C3_metric_witness :
    (25 ≤ sampleW.Torque ∧ sampleW.Torque ≤ 55)
    ∧ (290 ≤ sampleW.Temperature ∧ sampleW.Temperature ≤ 315)
    ∧ (2650 ≤ sampleW.Speed ∧ sampleW.Speed ≤ 2950)
    ∧ (0.25 ≤ sampleW.Vibration ∧ sampleW.Vibration ≤ 0.85) :=
  C3_metric_bounds envW 1 sampleW (by rw [run_one_window, genW1]; simp)

end PlantAGI
